import Mathlib

/-!
Verification of the surmon.me.native UI components:
* the article filter selection store (`src/components/archive/filter.tsx`), and
* the animated modal visibility controller (`src/components/common/modal.tsx`).

The store is embedded as a pure state type with the source's actions as state
transformers; the modal controller is embedded as a small timed event system
whose steps mirror the component's handlers together with the documented
behaviour of the React Native `Animated` / `Modal` primitives it drives.
-/

namespace Surmon

/-! ## Filter selection store (`filter.tsx`) -/

/-- The three filter dimensions (`enum EFilterType`). -/
inductive EFilterType
  | Tag
  | Category
  | Search
  deriving DecidableEq, Repr

/-- A tag reference (`ITag` from the business types); the store treats it
opaquely, the consuming view reads `slug`/`name`. -/
structure ITag where
  slug : String
  name : String
  deriving DecidableEq, Repr

/-- A category reference (`ICategory` from the business types). -/
structure ICategory where
  slug : String
  name : String
  deriving DecidableEq, Repr

/-- The union `TFilterValue = ITag | ICategory | string`. -/
inductive TFilterValue
  | tag (t : ITag)
  | category (c : ICategory)
  | search (s : String)
  deriving DecidableEq, Repr

/-- The observable fields of `class Store` in `filter.tsx`.  The record
`filterValues : IFilterValues` has one nullable slot per dimension; in the
source it is written through `this.filterValues[type] = value as any`, so each
slot is modelled as an `Option TFilterValue`. -/
structure StoreState where
  filterActive : Bool
  filterType : EFilterType
  tagValue : Option TFilterValue
  categoryValue : Option TFilterValue
  searchValue : Option TFilterValue
  tags : List ITag
  categories : List ICategory
  deriving DecidableEq, Repr

/-- The field initialisers of `Store`: inactive, `filterType = Category`,
all three value slots `null`, both lists empty. -/
def initialStore : StoreState :=
  { filterActive := false
    filterType := .Category
    tagValue := none
    categoryValue := none
    searchValue := none
    tags := []
    categories := [] }

/-- Record indexing `this.filterValues[t]`. -/
def filterValuesGet (s : StoreState) (t : EFilterType) : Option TFilterValue :=
  match t with
  | .Tag => s.tagValue
  | .Category => s.categoryValue
  | .Search => s.searchValue

/-- The computed getter `get filterValue()`: the if-chain on `this.filterType`
returning `this.filterValues[...]` for the matching dimension.  Note that the
source never consults `this.filterActive` here. -/
def filterValue (s : StoreState) : Option TFilterValue :=
  if s.filterType = .Search then s.searchValue
  else if s.filterType = .Tag then s.tagValue
  else if s.filterType = .Category then s.categoryValue
  else none

/-- The action `updateActiveFilter(type, value)`: sets `filterType`, stores the
value in the slot for `type`, and sets `filterActive = true`. -/
def updateActiveFilter (s : StoreState) (type : EFilterType) (value : TFilterValue) :
    StoreState :=
  let s1 := { s with filterType := type }
  let s2 :=
    match type with
    | .Tag => { s1 with tagValue := some value }
    | .Category => { s1 with categoryValue := some value }
    | .Search => { s1 with searchValue := some value }
  { s2 with filterActive := true }

/-- The action `clearActiveFilter()`: its body is the single assignment
`this.filterActive = false`. -/
def clearActiveFilter (s : StoreState) : StoreState :=
  { s with filterActive := false }

/-! ### Network fetches of the store -/

/-- The paginated result shape (`IHttpResultPaginate`): the handlers in the
source read only `.data`; the pagination metadata is carried but ignored. -/
structure IHttpResultPaginate (α : Type) where
  data : α
  pagination : Nat
  deriving DecidableEq, Repr

/-- The success-response wrapper (`THttpSuccessResponse`): the handlers read
`result.result`. -/
structure THttpSuccessResponse (α : Type) where
  result : α
  deriving DecidableEq, Repr

/-- An HTTP GET request issued through `fetch.get(path, params)`. -/
structure Request where
  path : String
  params : List (String × Nat)
  deriving DecidableEq, Repr

/-- Outcome of one fetch: the resolved success response, or a rejection.  The
promise chains in `fetchTags`/`fetchCategories` consist of a single `.then`
with no rejection handler. -/
inductive FetchOutcome (α : Type)
  | success (resp : THttpSuccessResponse α)
  | failure

/-- The request issued by `fetchTags()`: `fetch.get('/tag', { per_page: 666 })`. -/
def fetchTagsRequest : Request :=
  { path := "/tag", params := [("per_page", 666)] }

/-- The request issued by `fetchCategories()`: `fetch.get('/category')`. -/
def fetchCategoriesRequest : Request :=
  { path := "/category", params := [] }

/-- The continuation of `fetchTags()`: on success the `.then` handler stores
`result.result.data` into `this.tags`; on rejection there is no handler, so the
state is untouched. -/
def fetchTagsThen (outcome : FetchOutcome (IHttpResultPaginate (List ITag)))
    (s : StoreState) : StoreState :=
  match outcome with
  | .success result => { s with tags := result.result.data }
  | .failure => s

/-- The continuation of `fetchCategories()`: on success stores
`result.result.data` into `this.categories`; on rejection the state is
untouched. -/
def fetchCategoriesThen (outcome : FetchOutcome (IHttpResultPaginate (List ICategory)))
    (s : StoreState) : StoreState :=
  match outcome with
  | .success result => { s with categories := result.result.data }
  | .failure => s

/-- The constructor of `Store` calls exactly `this.fetchTags()` then
`this.fetchCategories()`, so it issues exactly these two requests, once. -/
def constructorRequests : List Request :=
  [fetchTagsRequest, fetchCategoriesRequest]

/-! ## Modal visibility controller (`modal.tsx`)

`BetterModal` keeps `@observable modalVisible : boolean = false` and
`@observable.ref maskOpacity = new Animated.Value(0)`.  A mobx `reaction` on
`this.props.visible` (with `fireImmediately: true`) runs
`handleVisibleChange`; the rendered `Modal` primitive fires `onShow` after
`modalVisible` turns true, which starts the fade-in.

The embedding is a timed event system over rational time.  The behaviour of
the two React Native primitives the component drives is part of the model:

* `Animated.timing(value, {toValue, duration: 88}).start(cb)` animates the
  value from its current position to `toValue` over 88 ms.  Starting a new
  animation on a value that is already animating stops the in-flight
  animation and invokes its start-callback immediately with
  `{finished: false}`; the source's callback
  `() => this.updateVisible(false)` ignores that argument, so an interrupted
  fade-out unmounts just like a completed one.
* `Modal` fires `onShow` after its `visible` prop transitions false → true;
  a show that is aborted by hiding again before the callback is delivered
  does not fire it.
* Animation easing is modelled as linear in time (the real default easing is
  a monotone reparametrisation of the same [0, 88] window with the same
  endpoints, which none of the claims distinguish).
-/

/-- The fixed animation duration used by `updateMaskVisible`: `duration: 88`. -/
def duration : ℚ := 88

/-- The computed getter `get propOpacity()`, whose body is
`this.props.opacity || 0.5`; `props.opacity` is an optional number and `0` is
falsy in JavaScript. -/
def propOpacity (opacity : Option ℚ) : ℚ :=
  match opacity with
  | some x => if x = 0 then 1/2 else x
  | none => 1/2

/-- An in-flight `Animated.timing` on `maskOpacity`: its start time, the value
it started from, its `toValue`, and whether it was given the unmount
callback `() => this.updateVisible(false)` (the only callback the source ever
passes to `.start`). -/
structure Anim where
  startTime : ℚ
  fromValue : ℚ
  toValue : ℚ
  unmountCb : Bool
  deriving DecidableEq, Repr

/-- The position of a timing animation at time `t`: linear interpolation from
`fromValue` to `toValue` over the `duration` window, clamped at the target once
the window has elapsed. -/
def animValue (a : Anim) (t : ℚ) : ℚ :=
  if a.startTime + duration ≤ t then a.toValue
  else a.fromValue + (a.toValue - a.fromValue) * (t - a.startTime) / duration

/-- The state of one `BetterModal` instance: the current time, the last
`props.visible` value seen by the reaction, the observable `modalVisible`, the
resting value of `maskOpacity` (its value when no animation is in flight), the
in-flight animation if any, and whether an `onShow` callback from the native
`Modal` is pending delivery. -/
structure ModalState where
  now : ℚ
  visible : Bool
  modalVisible : Bool
  baseOpacity : ℚ
  anim : Option Anim
  pendingOnShow : Bool
  deriving DecidableEq, Repr

/-- The current value of the `maskOpacity` animated value. -/
def maskOpacity (s : ModalState) : ℚ :=
  match s.anim with
  | some a => animValue a s.now
  | none => s.baseOpacity

/-- The action `updateVisible(visible)`, i.e. `this.modalVisible = visible`,
together with the native `Modal`'s reaction to the prop change: a false → true
transition queues the `onShow` callback, and hiding the modal aborts a
still-undelivered show callback. -/
def updateVisible (v : Bool) (s : ModalState) : ModalState :=
  if v then
    { s with modalVisible := true
             pendingOnShow := s.pendingOnShow || !s.modalVisible }
  else
    { s with modalVisible := false, pendingOnShow := false }

/-- `Animated.timing(this.maskOpacity, {toValue, duration: 88}).start(cb)` at
the current time: reads the current position, stops an in-flight animation —
invoking its callback (with `finished = false`, which the source's callback
ignores, so a pending unmount callback unmounts here) — and installs the new
animation starting from the current position. -/
def startAnim (target : ℚ) (cb : Bool) (s : ModalState) : ModalState :=
  let v := maskOpacity s
  let s1 :=
    match s.anim with
    | some a => if a.unmountCb then updateVisible false s else s
    | none => s
  { s1 with anim := some { startTime := s.now, fromValue := v, toValue := target, unmountCb := cb } }

/-- The method `updateMaskVisible(visible, callback?)`: a timing animation on
`maskOpacity` toward `visible ? this.propOpacity : 0` over 88 ms, started with
the given callback. -/
def updateMaskVisible (po : Option ℚ) (visible : Bool) (cb : Bool) (s : ModalState) :
    ModalState :=
  startAnim (if visible then propOpacity po else 0) cb s

/-- The reaction body `handleVisibleChange(visible)`: on `true` it calls
`this.updateVisible(true)`; on `false` it calls
`this.updateMaskVisible(false, () => this.updateVisible(false))`. -/
def handleVisibleChange (po : Option ℚ) (visible : Bool) (s : ModalState) : ModalState :=
  if visible then updateVisible true s
  else updateMaskVisible po false true s

/-- The events that can happen to a controller instance: time passing, the
owner changing `props.visible`, the native modal delivering `onShow`
(which runs `() => this.updateMaskVisible(true)`), and an in-flight animation
reaching its end and delivering its completion callback. -/
inductive Event
  | advance (d : ℚ)
  | toggle (b : Bool)
  | onShow
  | complete
  deriving DecidableEq, Repr

/-- One step of the controller.  `toggle` fires the reaction only when the
prop actually changes (mobx reactions fire on change); `onShow` is deliverable
only while queued; `complete` is deliverable once the in-flight animation's
window has elapsed, fixes the value at `toValue`, and runs the animation's
callback (for the fade-out this is `() => this.updateVisible(false)`). -/
def step (po : Option ℚ) (s : ModalState) (e : Event) : ModalState :=
  match e with
  | .advance d => if 0 ≤ d then { s with now := s.now + d } else s
  | .toggle b =>
      if b = s.visible then s
      else handleVisibleChange po b { s with visible := b }
  | .onShow =>
      if s.pendingOnShow then
        updateMaskVisible po true false { s with pendingOnShow := false }
      else s
  | .complete =>
      match s.anim with
      | some a =>
          if a.startTime + duration ≤ s.now then
            let s1 := { s with anim := none, baseOpacity := a.toValue }
            if a.unmountCb then updateVisible false s1 else s1
          else s
      | none => s

/-- Construction of the component with initial prop value `v` at time 0: the
fields start as `modalVisible = false`, `maskOpacity = 0`, and the
`fireImmediately` reaction runs `handleVisibleChange` on the initial value. -/
def init (po : Option ℚ) (v : Bool) : ModalState :=
  handleVisibleChange po v
    { now := 0, visible := v, modalVisible := false, baseOpacity := 0
      anim := none, pendingOnShow := false }

/-- Run a list of events from a state. -/
def run (po : Option ℚ) (s : ModalState) : List Event → ModalState
  | [] => s
  | e :: es => run po (step po s e) es

/-- The value of the last `toggle` event in a trace, if any. -/
def lastToggle : List Event → Option Bool
  | [] => none
  | e :: es =>
      match lastToggle es, e with
      | some c, _ => some c
      | none, .toggle b => some b
      | none, _ => none

/-- The system has stabilised: no animation in flight and no queued `onShow`
callback, so no further step other than a prop change can alter the state. -/
def stableState (s : ModalState) : Prop :=
  s.anim = none ∧ s.pendingOnShow = false

/-! ## Theorems about the filter store -/

/-- C4 counterexample: select a tag, then clear.  `filterActive` is `false`,
yet `filterValue` still returns the stored tag rather than absent, because the
getter never consults `filterActive`. -/
theorem C4_counterexample :
    (clearActiveFilter (updateActiveFilter initialStore EFilterType.Tag
        (TFilterValue.tag { slug := "t1", name := "t1" }))).filterActive = false
    ∧ filterValue (clearActiveFilter (updateActiveFilter initialStore EFilterType.Tag
        (TFilterValue.tag { slug := "t1", name := "t1" })))
        = some (TFilterValue.tag { slug := "t1", name := "t1" })
    ∧ filterValue (clearActiveFilter (updateActiveFilter initialStore EFilterType.Tag
        (TFilterValue.tag { slug := "t1", name := "t1" }))) ≠ none := by
  refine ⟨rfl, rfl, ?_⟩
  simp [filterValue, clearActiveFilter, updateActiveFilter, initialStore]

/-- C4 (amended): `filterValue` returns the value stored for the currently
selected dimension `filterType`, independent of `filterActive`: it is absent in
the initial state, returns the value just stored after `updateActiveFilter`,
and is left unchanged (in particular not made absent) by `clearActiveFilter`.
As a Lean function of the state it is pure by construction. -/
theorem C4_filterValue_amended :
    filterValue initialStore = none
    ∧ (∀ s : StoreState, filterValue s = filterValuesGet s s.filterType)
    ∧ (∀ (s : StoreState) (d : EFilterType) (v : TFilterValue),
        filterValue (updateActiveFilter s d v) = some v)
    ∧ (∀ s : StoreState, filterValue (clearActiveFilter s) = filterValue s) := by
  refine ⟨rfl, ?_, ?_, fun s => rfl⟩
  · intro s
    obtain ⟨fa, ft, tv, cv, sv, tg, ct⟩ := s
    cases ft <;> rfl
  · intro s d v
    cases d <;> rfl

/-- C5: `clearActiveFilter` sets `filterActive` to `false` and changes nothing
else: the selected dimension, all three stored per-dimension values, and both
fetched lists are untouched. -/
theorem C5_clear_is_soft :
    ∀ s : StoreState,
      (clearActiveFilter s).filterActive = false
      ∧ (clearActiveFilter s).filterType = s.filterType
      ∧ (clearActiveFilter s).tagValue = s.tagValue
      ∧ (clearActiveFilter s).categoryValue = s.categoryValue
      ∧ (clearActiveFilter s).searchValue = s.searchValue
      ∧ (clearActiveFilter s).tags = s.tags
      ∧ (clearActiveFilter s).categories = s.categories :=
  fun _ => ⟨rfl, rfl, rfl, rfl, rfl, rfl, rfl⟩

/-- C6: `updateActiveFilter d v` stores `v` under dimension `d`, makes `d` the
selected dimension and activates the filter; consequently selecting a tag, then
a category, makes `filterValue` return the category, and re-selecting the tag
makes it return the tag again. -/
theorem C6_setSelection :
    ∀ (s : StoreState) (d : EFilterType) (v : TFilterValue),
      (updateActiveFilter s d v).filterType = d
      ∧ (updateActiveFilter s d v).filterActive = true
      ∧ filterValuesGet (updateActiveFilter s d v) d = some v
      ∧ (∀ (t1 c1 : TFilterValue),
          filterValue (updateActiveFilter (updateActiveFilter s EFilterType.Tag t1)
            EFilterType.Category c1) = some c1
          ∧ filterValue (updateActiveFilter (updateActiveFilter (updateActiveFilter s
              EFilterType.Tag t1) EFilterType.Category c1) EFilterType.Tag t1)
              = some t1) := by
  intro s d v
  cases d <;> exact ⟨rfl, rfl, rfl, fun t1 c1 => ⟨rfl, rfl⟩⟩

/-- C9: the store constructor issues exactly the two requests
`GET /tag?per_page=666` and `GET /category`, once each; a rejected fetch leaves
the state untouched (no rejection handler), so the corresponding list stays
empty; a resolved fetch stores exactly the `data` array of the paginated
result, ignoring the pagination metadata. -/
theorem C9_fetch_behavior :
    constructorRequests
      = [{ path := "/tag", params := [("per_page", 666)] },
         { path := "/category", params := [] }]
    ∧ (∀ s : StoreState, fetchTagsThen FetchOutcome.failure s = s)
    ∧ (∀ s : StoreState, fetchCategoriesThen FetchOutcome.failure s = s)
    ∧ (fetchTagsThen FetchOutcome.failure initialStore).tags = []
    ∧ (fetchCategoriesThen FetchOutcome.failure initialStore).categories = []
    ∧ (∀ (s : StoreState) (d : List ITag) (p : Nat),
        fetchTagsThen (FetchOutcome.success { result := { data := d, pagination := p } }) s
          = { s with tags := d })
    ∧ (∀ (s : StoreState) (d : List ICategory) (p : Nat),
        fetchCategoriesThen (FetchOutcome.success { result := { data := d, pagination := p } }) s
          = { s with categories := d }) :=
  ⟨rfl, fun _ => rfl, fun _ => rfl, rfl, rfl, fun _ _ _ => rfl, fun _ _ _ => rfl⟩

/-! ## Theorems about the modal controller -/

/-- C10: the effective target opacity is `props.opacity` whenever that is a
nonzero (truthy) number, and `0.5` otherwise; in particular an explicitly
configured `opacity = 0` still yields `0.5`, so the fade-in target is never
`0`. -/
theorem C10_propOpacity_default :
    propOpacity none = 1/2
    ∧ propOpacity (some 0) = 1/2
    ∧ (∀ x : ℚ, x ≠ 0 → propOpacity (some x) = x)
    ∧ (∀ o : Option ℚ, propOpacity o ≠ 0) := by
  refine ⟨rfl, by norm_num [propOpacity], fun x hx => by simp [propOpacity, hx], fun o => ?_⟩
  match o with
  | none => norm_num [propOpacity]
  | some x =>
      by_cases hx : x = 0
      · subst hx; norm_num [propOpacity]
      · simp [propOpacity, hx]

/-- C10 witness: a caller configuring `opacity = 3/4` gets exactly `3/4`. -/
theorem C10_propOpacity_default_witness :
    propOpacity (some (3/4)) = 3/4 :=
  C10_propOpacity_default.2.2.1 (3/4) (by norm_num)

/-- Events of the C1 failing trace: the owner sets `visible = true` shortly
after construction (while the construction-time fade-to-0 animation is still
in flight), the native modal delivers `onShow`, and 44 ms pass. -/
def c1Trace : List Event := [Event.toggle true, Event.onShow, Event.advance 44]

/-- C1 is violated: on this trace the `onShow` fade-in interrupts the
construction-time fade-out, whose callback unmounts the modal; the fade-in
keeps running, so the controller is unmounted with mask opacity `1/4`. -/
theorem C1_unmounted_with_positive_opacity :
    (run none (init none false) c1Trace).modalVisible = false
    ∧ maskOpacity (run none (init none false) c1Trace) = 1/4 := by
  norm_num [c1Trace, run, step, init, handleVisibleChange, updateMaskVisible, startAnim,
    updateVisible, maskOpacity, animValue, propOpacity, duration]

/-- Events of the C2/C3 failing trace: open the modal, let it settle, close
it, and re-open it 44 ms into the fade-out; this is the prefix up to the
re-open request. -/
def c2TracePrefix : List Event :=
  [Event.advance 88, Event.complete, Event.toggle true, Event.onShow,
   Event.advance 88, Event.complete, Event.toggle false, Event.advance 44, Event.toggle true]

/-- The full C2/C3 failing trace: after the re-open request, the in-flight
fade-out runs to completion and delivers its callback. -/
def c2Trace : List Event :=
  [Event.advance 88, Event.complete, Event.toggle true, Event.onShow,
   Event.advance 88, Event.complete, Event.toggle false, Event.advance 44, Event.toggle true,
   Event.advance 44, Event.complete]

/-- C2 is violated: after `visible` turns `true` again 44 ms into the
fade-out, the in-flight animation is still the fade-out toward `0` started at
t = 176 (not redirected toward the new target), the fade-out has not completed
(t = 220 < 176 + 88), and when its completion callback later fires it unmounts
the modal even though the latest request was to show it. -/
theorem C2_stale_callback_unmounts :
    (run none (init none false) c2TracePrefix).modalVisible = true
    ∧ (run none (init none false) c2TracePrefix).visible = true
    ∧ (run none (init none false) c2TracePrefix).anim
        = some { startTime := 176, fromValue := 1/2, toValue := 0, unmountCb := true }
    ∧ (run none (init none false) c2TracePrefix).now = 220
    ∧ (220 : ℚ) < 176 + duration
    ∧ (run none (init none false) c2Trace).modalVisible = false
    ∧ (run none (init none false) c2Trace).visible = true := by
  norm_num [c2TracePrefix, c2Trace, run, step, init, handleVisibleChange, updateMaskVisible,
    startAnim, updateVisible, maskOpacity, animValue, propOpacity, duration]

/-- C3 is violated: the trace ends stabilised (no animation in flight, no
queued callback) with its last toggle being `true`, yet the controller is
unmounted. -/
theorem C3_stabilized_mount_mismatch :
    lastToggle c2Trace = some true
    ∧ stableState (run none (init none false) c2Trace)
    ∧ (run none (init none false) c2Trace).modalVisible = false := by
  refine ⟨rfl, ?_, ?_⟩ <;>
    norm_num [stableState, c2Trace, run, step, init, handleVisibleChange, updateMaskVisible,
      startAnim, updateVisible, maskOpacity, animValue, propOpacity, duration]

/-- Events of the C7 failing trace: a quick open leaves the controller broken
(unmounted at full opacity, see C1); the owner then closes — starting a
fade-out, the close transition — and re-opens 44 ms into it, so the native
modal mounts and queues `onShow`. -/
def c7Trace : List Event :=
  [Event.toggle true, Event.onShow, Event.advance 88, Event.complete,
   Event.toggle false, Event.advance 44, Event.toggle true]

/-- C7 is violated: at the end of the trace the modal is mounted and the close
transition's fade-out (started at t = 88, target 0, carrying the unmount
callback) is still in flight at opacity `1/4` (t = 132 < 88 + 88); delivering
`onShow` starts the fade-in, which interrupts the fade-out and runs its
callback — the unmount step executes before the fade-out completed, while the
mask opacity is strictly positive. -/
theorem C7_unmount_before_fadeout_completes :
    (run none (init none false) c7Trace).modalVisible = true
    ∧ (run none (init none false) c7Trace).anim
        = some { startTime := 88, fromValue := 1/2, toValue := 0, unmountCb := true }
    ∧ (run none (init none false) c7Trace).now = 132
    ∧ (132 : ℚ) < 88 + duration
    ∧ maskOpacity (run none (init none false) c7Trace) = 1/4
    ∧ (step none (run none (init none false) c7Trace) Event.onShow).modalVisible = false := by
  norm_num [c7Trace, run, step, init, handleVisibleChange, updateMaskVisible, startAnim,
    updateVisible, maskOpacity, animValue, propOpacity, duration]

/-- The C8 scenario: construct with `visible = true` at t = 0 (mounting
immediately) and deliver `onShow`, starting the fade-in toward the default
target `0.5`. -/
def c8Opening : ModalState := step none (init none true) Event.onShow

/-- The C8 alternative: 40 ms into the fade-in, the owner sets
`visible = false`, starting the fade-out from the current opacity. -/
def c8Closing : ModalState :=
  step none (run none c8Opening [Event.advance 40]) (Event.toggle false)

/-- C8: with the default target opacity `0.5` and duration 88, opening at
t = 0 mounts at t = 0 and the opacity reaches `0.5` at t = 88; closing instead
at t = 40 (opacity `5/22 ≈ 0.23`) starts an 88 ms fade-out from that value, the
controller unmounts at t = 128 with opacity 0, and the opacity stays strictly
below `0.5` throughout the fade-out. -/
theorem C8_concrete_scenario :
    propOpacity none = 1/2
    ∧ (init none true).modalVisible = true
    ∧ (init none true).now = 0
    ∧ (run none c8Opening [Event.advance 88, Event.complete]).modalVisible = true
    ∧ (run none c8Opening [Event.advance 88, Event.complete]).now = 88
    ∧ maskOpacity (run none c8Opening [Event.advance 88, Event.complete]) = 1/2
    ∧ maskOpacity (run none c8Opening [Event.advance 40]) = 5/22
    ∧ c8Closing.anim = some { startTime := 40, fromValue := 5/22, toValue := 0, unmountCb := true }
    ∧ (run none c8Closing [Event.advance 88, Event.complete]).now = 128
    ∧ (run none c8Closing [Event.advance 88, Event.complete]).modalVisible = false
    ∧ maskOpacity (run none c8Closing [Event.advance 88, Event.complete]) = 0
    ∧ (∀ d : ℚ, 0 ≤ d → d ≤ 88 →
        maskOpacity (step none c8Closing (Event.advance d)) < 1/2) := by
  have hC : c8Closing
      = { now := 40, visible := false, modalVisible := true, baseOpacity := 0,
          anim := some { startTime := 40, fromValue := 5/22, toValue := 0, unmountCb := true },
          pendingOnShow := false } := by
    norm_num [c8Closing, c8Opening, run, step, init, handleVisibleChange, updateMaskVisible,
      startAnim, updateVisible, maskOpacity, animValue, propOpacity, duration]
  refine ⟨rfl, rfl, rfl, ?_, ?_, ?_, ?_, ?_, ?_, ?_, ?_, ?_⟩
  case _ => norm_num [c8Opening, run, step, init, handleVisibleChange, updateMaskVisible,
    startAnim, updateVisible, maskOpacity, animValue, propOpacity, duration]
  case _ => norm_num [c8Opening, run, step, init, handleVisibleChange, updateMaskVisible,
    startAnim, updateVisible, maskOpacity, animValue, propOpacity, duration]
  case _ => norm_num [c8Opening, run, step, init, handleVisibleChange, updateMaskVisible,
    startAnim, updateVisible, maskOpacity, animValue, propOpacity, duration]
  case _ => norm_num [c8Opening, run, step, init, handleVisibleChange, updateMaskVisible,
    startAnim, updateVisible, maskOpacity, animValue, propOpacity, duration]
  case _ => rw [hC]
  case _ => rw [hC]; norm_num [run, step, updateVisible, maskOpacity, animValue, duration]
  case _ => rw [hC]; norm_num [run, step, updateVisible, maskOpacity, animValue, duration]
  case _ => rw [hC]; norm_num [run, step, updateVisible, maskOpacity, animValue, duration]
  case _ =>
    intro d h0 h88
    rw [hC]
    simp only [step, h0, if_true, maskOpacity, animValue, duration]
    split_ifs with h
    · norm_num
    · nlinarith [h0, h88]

/-- C8 witness: 44 ms into the fade-out the opacity is strictly below `0.5`. -/
theorem C8_concrete_scenario_witness :
    maskOpacity (step none c8Closing (Event.advance 44)) < 1/2 :=
  C8_concrete_scenario.2.2.2.2.2.2.2.2.2.2.2 44 (by norm_num) (by norm_num)

end Surmon
